import Mathlib

/-!
Formal model of the AMH appointment-booking core: the stored procedures of
`schema.sql` (atomic slot allocation, patient-id generation) and the
JavaScript data layer of `assets/js/supabase.js` / `admin-auth.js`
(cancellation, status updates, RPC wrappers), together with theorems checking
the specification's claims against this model.

Modelling conventions:
* UUIDs are modelled as natural numbers drawn from a per-database counter
  (`next_id`), dates as natural-number day indices, times via the
  seconds-remaining quantity that the JavaScript helpers compute.
* Timestamp columns that no claim depends on (`booked_at`, `cancelled_at`,
  `verified_at`) are elided; data columns that operations write
  (`cancellation_reason`, `verified_by`) are kept.
* A PostgreSQL statement that raises (the slot-number unique-constraint
  violation on INSERT) is modelled by the `dbError` outcome, with the
  transaction rolled back (state returned unchanged).
-/

/-- Booking lifecycle status: the CHECK-constrained `status` column of
`opd_bookings` and `clinic_bookings` in `schema.sql`. -/
inductive Status where
  | pending
  | verified
  | in_consultation
  | completed
  | cancelled
  | no_show
deriving DecidableEq, Repr

/-- The SQL filter `status NOT IN ('cancelled', 'no_show')` used by the booking
procedures; the spec calls such bookings non-terminal. -/
def Status.nonTerminal : Status → Bool
  | .cancelled => false
  | .no_show => false
  | _ => true

/-- Terminal states per the spec's state machine: `completed`, `cancelled`,
`no_show`. -/
def Status.isTerminal : Status → Bool
  | .completed => true
  | .cancelled => true
  | .no_show => true
  | _ => false

/-- A row of `opd_slot_templates` / `clinic_slot_templates`: recurring weekly
time box with capacity `max_slots` and an `is_active` soft-delete flag. -/
structure SlotTemplate where
  id : Nat
  day_of_week : Nat
  max_slots : Nat
  is_active : Bool
deriving DecidableEq, Repr

/-- A row of `opd_bookings`. -/
structure Booking where
  id : Nat
  patient_id : Nat
  booking_date : Nat
  template_id : Nat
  slot_number : Nat
  status : Status
  verified_by : Option Nat
  cancellation_reason : Option String
deriving DecidableEq, Repr

/-- A row of `clinic_bookings` (same shape plus `clinic_id`). -/
structure ClinicBooking where
  id : Nat
  patient_id : Nat
  clinic_id : Nat
  booking_date : Nat
  template_id : Nat
  slot_number : Nat
  status : Status
  verified_by : Option Nat
  cancellation_reason : Option String
deriving DecidableEq, Repr

/-- The database state the booking core reads and writes: the two template
stores, the admin-blocked dates, the two booking ledgers, and a counter
standing in for fresh-UUID generation. -/
structure DB where
  opd_slot_templates : List SlotTemplate
  clinic_slot_templates : List SlotTemplate
  blocked_dates : List Nat
  opd_bookings : List Booking
  clinic_bookings : List ClinicBooking
  next_id : Nat
deriving DecidableEq, Repr

/-- `SELECT max_slots FROM ... WHERE id = p_template_id FOR UPDATE`: primary-key
lookup of a template row. -/
def findTemplate (ts : List SlotTemplate) (tid : Nat) : Option SlotTemplate :=
  ts.find? (fun t => t.id == tid)

/-- `COUNT(*) FROM opd_bookings WHERE booking_date = .. AND template_id = ..
AND status NOT IN ('cancelled','no_show')`. -/
def opdBookedCount (db : DB) (date tid : Nat) : Nat :=
  (db.opd_bookings.filter (fun b =>
    b.booking_date == date && b.template_id == tid && b.status.nonTerminal)).length

/-- Clinic version of the non-terminal booking count. -/
def clinicBookedCount (db : DB) (date tid : Nat) : Nat :=
  (db.clinic_bookings.filter (fun b =>
    b.booking_date == date && b.template_id == tid && b.status.nonTerminal)).length

/-- Whether a row with the given `(booking_date, template_id, slot_number)` key
already exists in `opd_bookings`: the `UNIQUE(booking_date, template_id,
slot_number)` constraint rejects an INSERT exactly when this holds. -/
def opdSlotTaken (db : DB) (date tid slot : Nat) : Bool :=
  db.opd_bookings.any (fun b =>
    b.booking_date == date && b.template_id == tid && b.slot_number == slot)

/-- Clinic version of the slot-number unique-key probe. -/
def clinicSlotTaken (db : DB) (date tid slot : Nat) : Bool :=
  db.clinic_bookings.any (fun b =>
    b.booking_date == date && b.template_id == tid && b.slot_number == slot)

/-- `EXISTS (SELECT 1 FROM opd_bookings WHERE patient_id = .. AND booking_date
= .. AND status NOT IN ('cancelled','no_show'))`. -/
def patientHasOpdBooking (db : DB) (pid date : Nat) : Bool :=
  db.opd_bookings.any (fun b =>
    b.patient_id == pid && b.booking_date == date && b.status.nonTerminal)

/-- Clinic version of the patient-already-booked probe. -/
def patientHasClinicBooking (db : DB) (pid date : Nat) : Bool :=
  db.clinic_bookings.any (fun b =>
    b.patient_id == pid && b.booking_date == date && b.status.nonTerminal)

/-- Outcome of one `book_opd_slot` / `book_clinic_slot` call: the returned
JSONB on the success and business-rejection paths, or a raised storage error
(`dbError`, e.g. a unique-constraint violation) that aborts the transaction. -/
inductive BookOutcome where
  | ok (booking_id slot_number : Nat)
  | err (msg : String)
  | dbError (msg : String)
deriving DecidableEq, Repr

/-- The PostgreSQL error message raised when the INSERT into `opd_bookings`
violates the slot-number unique constraint. -/
def opdUniqueViolationMsg : String :=
  "duplicate key value violates unique constraint opd_bookings_booking_date_template_id_slot_number_key"

/-- The PostgreSQL error message raised when the INSERT into `clinic_bookings`
violates the slot-number unique constraint. -/
def clinicUniqueViolationMsg : String :=
  "duplicate key value violates unique constraint clinic_bookings_booking_date_template_id_slot_number_key"

/-- FUNCTION 2 of `schema.sql`, `book_opd_slot(p_patient_id, p_booking_date,
p_template_id)`: lock and read the template (no `is_active` filter), count
non-terminal bookings, reject when full, reject when the patient already has
an OPD or clinic booking on the date, else INSERT with slot number
`count + 1`; the INSERT raises if that slot number is already present. -/
def book_opd_slot (db : DB) (pid date tid : Nat) : BookOutcome × DB :=
  match findTemplate db.opd_slot_templates tid with
  | none => (.err "Template not found", db)
  | some tpl =>
    let cnt := opdBookedCount db date tid
    if tpl.max_slots ≤ cnt then
      (.err "Slot is fully booked", db)
    else if patientHasOpdBooking db pid date then
      (.err "You already have an OPD booking on this date", db)
    else if patientHasClinicBooking db pid date then
      (.err "You already have a clinic booking on this date", db)
    else if opdSlotTaken db date tid (cnt + 1) then
      (.dbError opdUniqueViolationMsg, db)
    else
      (.ok db.next_id (cnt + 1),
       { db with
           opd_bookings :=
             db.opd_bookings ++ [⟨db.next_id, pid, date, tid, cnt + 1, .pending, none, none⟩],
           next_id := db.next_id + 1 })

/-- FUNCTION 3 of `schema.sql`, `book_clinic_slot(p_patient_id, p_clinic_id,
p_booking_date, p_template_id)`: same algorithm against the clinic ledger
(patient-exclusivity checks consult the OPD ledger first, then the clinic
ledger, exactly as in `book_opd_slot`). -/
def book_clinic_slot (db : DB) (pid cid date tid : Nat) : BookOutcome × DB :=
  match findTemplate db.clinic_slot_templates tid with
  | none => (.err "Template not found", db)
  | some tpl =>
    let cnt := clinicBookedCount db date tid
    if tpl.max_slots ≤ cnt then
      (.err "Slot is fully booked", db)
    else if patientHasOpdBooking db pid date then
      (.err "You already have an OPD booking on this date", db)
    else if patientHasClinicBooking db pid date then
      (.err "You already have a clinic booking on this date", db)
    else if clinicSlotTaken db date tid (cnt + 1) then
      (.dbError clinicUniqueViolationMsg, db)
    else
      (.ok db.next_id (cnt + 1),
       { db with
           clinic_bookings :=
             db.clinic_bookings ++ [⟨db.next_id, pid, cid, date, tid, cnt + 1, .pending, none, none⟩],
           next_id := db.next_id + 1 })

/-- The row filter of `cancelOPDBooking` / `cancelClinicBooking` in
`supabase.js`: `.eq('id', bookingId).eq('patient_id', patientId)
.in('status', ['pending'])`. -/
def cancelMatch (bid pid : Nat) (rowId rowPid : Nat) (st : Status) : Bool :=
  rowId == bid && rowPid == pid && st == Status.pending

/-- `cancelOPDBooking(bookingId, patientId, reason)` from `supabase.js`: set
`status = 'cancelled'` and the cancellation reason on every row matching the
filter, and return `{error: null}` whether or not any row matched. -/
def cancelOPDBooking (db : DB) (bid pid : Nat) (reason : String) : Option String × DB :=
  (none,
   { db with
       opd_bookings := db.opd_bookings.map (fun b =>
         if cancelMatch bid pid b.id b.patient_id b.status then
           { b with status := .cancelled, cancellation_reason := some reason }
         else b) })

/-- `cancelClinicBooking(bookingId, patientId, reason)` from `supabase.js`. -/
def cancelClinicBooking (db : DB) (bid pid : Nat) (reason : String) : Option String × DB :=
  (none,
   { db with
       clinic_bookings := db.clinic_bookings.map (fun b =>
         if cancelMatch bid pid b.id b.patient_id b.status then
           { b with status := .cancelled, cancellation_reason := some reason }
         else b) })

/-- The `bookingType` argument of `updateBookingStatus` ('opd' | 'clinic'). -/
inductive BookingType where
  | opd
  | clinic
deriving DecidableEq, Repr

/-- `updateBookingStatus(bookingType, bookingId, newStatus, adminId)` from
`supabase.js`: write `status = newStatus` on the row with the given id (also
stamping `verified_by` when the new status is `verified`), with no check of
the row's current status. -/
def updateBookingStatus (db : DB) (bt : BookingType) (bid : Nat) (newStatus : Status)
    (adminId : Nat) : Option String × DB :=
  match bt with
  | .opd =>
    (none,
     { db with
         opd_bookings := db.opd_bookings.map (fun b =>
           if b.id == bid then
             { b with
                 status := newStatus,
                 verified_by := if newStatus == Status.verified then some adminId else b.verified_by }
           else b) })
  | .clinic =>
    (none,
     { db with
         clinic_bookings := db.clinic_bookings.map (fun b =>
           if b.id == bid then
             { b with
                 status := newStatus,
                 verified_by := if newStatus == Status.verified then some adminId else b.verified_by }
           else b) })

/-- The `{data, error}` object the JavaScript RPC wrappers return to callers. -/
structure JsBookingResult where
  data : Option (Nat × Nat)
  error : Option String
deriving DecidableEq, Repr

/-- `bookOPDSlot(patientId, bookingDate, templateId)` from `supabase.js`: call
the `book_opd_slot` RPC; an RPC-level error is returned verbatim as
`{data: null, error: error.message}`, a `success: false` JSONB as
`{data: null, error: data.error}`, a success as `{data, error: null}`. -/
def bookOPDSlot (db : DB) (pid date tid : Nat) : JsBookingResult × DB :=
  match book_opd_slot db pid date tid with
  | (.ok bid slot, db') => (⟨some (bid, slot), none⟩, db')
  | (.err msg, db') => (⟨none, some msg⟩, db')
  | (.dbError msg, db') => (⟨none, some msg⟩, db')

/-- `bookClinicSlot(patientId, clinicId, bookingDate, templateId)` from
`supabase.js`. -/
def bookClinicSlot (db : DB) (pid cid date tid : Nat) : JsBookingResult × DB :=
  match book_clinic_slot db pid cid date tid with
  | (.ok bid slot, db') => (⟨some (bid, slot), none⟩, db')
  | (.err msg, db') => (⟨none, some msg⟩, db')
  | (.dbError msg, db') => (⟨none, some msg⟩, db')

/-- PostgreSQL `LPAD(s, len, fill)`: pad on the left to length `len`, or
truncate on the right (keeping the leftmost `len` characters) when `s` is
already longer. -/
def lpad (s : String) (len : Nat) (fill : Char) : String :=
  if len ≤ s.length then ⟨s.toList.take len⟩
  else ⟨List.replicate (len - s.length) fill ++ s.toList⟩

/-- TABLE 11 `patient_id_sequence`: one `(year, last_seq)` row per calendar
year. -/
structure SeqTable where
  rows : List (Nat × Nat)
deriving DecidableEq, Repr

/-- FUNCTION 1 of `schema.sql`, `generate_patient_id()`: upsert the row for
`current_year` (`INSERT .. VALUES (year, 1) ON CONFLICT (year) DO UPDATE SET
last_seq = last_seq + 1 RETURNING last_seq`) and return
`'AMH' || current_year || LPAD(next_seq::TEXT, 6, '0')`. The current year,
read from the clock in SQL, is passed as an argument. -/
def generate_patient_id (current_year : Nat) (t : SeqTable) : String × SeqTable :=
  match t.rows.find? (fun r => r.1 == current_year) with
  | some r =>
    ("AMH" ++ Nat.repr current_year ++ lpad (Nat.repr (r.2 + 1)) 6 '0',
     ⟨t.rows.map (fun q => if q.1 == current_year then (q.1, r.2 + 1) else q)⟩)
  | none =>
    ("AMH" ++ Nat.repr current_year ++ lpad (Nat.repr 1) 6 '0',
     ⟨t.rows ++ [(current_year, 1)]⟩)

/-- The sequence table after `k` sequential `generate_patient_id` calls in year
`year`, starting from table `t`. -/
def callsFrom (year : Nat) (t : SeqTable) : Nat → SeqTable
  | 0 => t
  | k + 1 => (generate_patient_id year (callsFrom year t k)).2

/-- The identifier returned by the `(k+1)`-st sequential `generate_patient_id`
call in year `year`, starting from an empty sequence table. -/
def nthPatientId (year k : Nat) : String :=
  (generate_patient_id year (callsFrom year ⟨[]⟩ k)).1

/-- `AMH_CONFIG.APP.CANCELLATION_WINDOW_HOURS` from `config.js`. -/
def cancellationWindowHours : Nat := 2

/-- `canCancelBooking(bookingDate, startTime)` from `admin-auth.js`: true iff
`secondsUntilBooking(bookingDate, startTime)` exceeds the cancellation window.
The clock-dependent seconds-remaining quantity is passed as the argument. -/
def canCancelBooking (secondsRemaining : Int) : Bool :=
  secondsRemaining > cancellationWindowHours * 3600

/-- Decimal value of a big-endian digit-character list, used to decode the
zero-padded sequence suffix of a generated patient identifier. -/
def digitsVal (l : List Char) : Nat :=
  l.foldl (fun a c => 10 * a + (c.toNat - 48)) 0

/-- An initial database: configured templates and blocked dates, empty booking
ledgers. -/
def initDB (opdT clinicT : List SlotTemplate) (blocked : List Nat) : DB :=
  ⟨opdT, clinicT, blocked, [], [], 1⟩

/-- One state transition of the booking core: any allocation, patient
cancellation, or staff status update, with any arguments. -/
inductive Step : DB → DB → Prop where
  | book_opd (db : DB) (pid date tid : Nat) :
      Step db (book_opd_slot db pid date tid).2
  | book_clinic (db : DB) (pid cid date tid : Nat) :
      Step db (book_clinic_slot db pid cid date tid).2
  | cancel_opd (db : DB) (bid pid : Nat) (reason : String) :
      Step db (cancelOPDBooking db bid pid reason).2
  | cancel_clinic (db : DB) (bid pid : Nat) (reason : String) :
      Step db (cancelClinicBooking db bid pid reason).2
  | update_status (db : DB) (bt : BookingType) (bid : Nat) (st : Status) (adminId : Nat) :
      Step db (updateBookingStatus db bt bid st adminId).2

/-- Reachability of a database state from another under booking-core
operations. -/
def Reachable (db0 db : DB) : Prop :=
  Relation.ReflTransGen Step db0 db

/-- The rows of an OPD booking list belonging to one `(booking_date,
template_id)` slot instance. -/
def slotRows (l : List Booking) (date tid : Nat) : List Booking :=
  l.filter (fun b => b.booking_date == date && b.template_id == tid)

/-- Clinic version of `slotRows`. -/
def cSlotRows (l : List ClinicBooking) (date tid : Nat) : List ClinicBooking :=
  l.filter (fun b => b.booking_date == date && b.template_id == tid)

/-- Ledger invariant: for every slot instance, the slot numbers over all
bookings (any status) are exactly `1..M` for `M` the number of rows, and `M`
never exceeds the capacity of the (immutable) owning template. -/
def LedgerInv (db : DB) : Prop :=
  (∀ date tid : Nat,
    ((slotRows db.opd_bookings date tid).map (fun b => b.slot_number)).Perm
      (List.range' 1 (slotRows db.opd_bookings date tid).length) ∧
    ∀ tpl, findTemplate db.opd_slot_templates tid = some tpl →
      (slotRows db.opd_bookings date tid).length ≤ tpl.max_slots) ∧
  (∀ date tid : Nat,
    ((cSlotRows db.clinic_bookings date tid).map (fun b => b.slot_number)).Perm
      (List.range' 1 (cSlotRows db.clinic_bookings date tid).length) ∧
    ∀ tpl, findTemplate db.clinic_slot_templates tid = some tpl →
      (cSlotRows db.clinic_bookings date tid).length ≤ tpl.max_slots)

/-- Modelled from the spec: the uniqueness property of section 8 — "for any
(date, template), the set of committed slot numbers among non-cancelled
bookings is exactly {1, 2, ..., N} with no duplicates and no gaps, where N is
the count of such bookings" — as a decidable check on the OPD ledger. -/
def specNonCancelledSlotsComplete (db : DB) (date tid : Nat) : Bool :=
  let slots := ((slotRows db.opd_bookings date tid).filter
    (fun b => !(b.status == Status.cancelled))).map (fun b => b.slot_number)
  (List.range' 1 slots.length).all (fun k => slots.contains k) && decide slots.Nodup

/-- A capacity-2 OPD template, realizing the spec's concrete scenario
(section 8: "template capacity=2"). -/
def tplTwo : SlotTemplate := ⟨1, 1, 2, true⟩

/-- Initial state for the spec's concrete scenario: one capacity-2 OPD
template, empty ledgers. -/
def dbC0 : DB := initDB [tplTwo] [] []

/-- After request A: patient 1 books date 5, receiving slot 1. -/
def dbC1 : DB := (book_opd_slot dbC0 1 5 1).2

/-- After request B: patient 2 books date 5, receiving slot 2. -/
def dbC2 : DB := (book_opd_slot dbC1 2 5 1).2

/-- After the booking with slot 1 is cancelled by patient 1. -/
def dbC3 : DB := (cancelOPDBooking dbC2 1 1 "Cancelled by patient").2

/-- A capacity-1 OPD template. -/
def tplOne : SlotTemplate := ⟨1, 1, 1, true⟩

/-- Initial state with one capacity-1 OPD template. -/
def dbD0 : DB := initDB [tplOne] [] []

/-- After patient 1 books date 5 on the capacity-1 template (slot 1). -/
def dbD1 : DB := (book_opd_slot dbD0 1 5 1).2

/-- After staff move booking 1 to the terminal status `completed`. -/
def dbD2 : DB := (updateBookingStatus dbD1 .opd 1 .completed 9).2

/-- After staff subsequently move the completed booking 1 back to `pending`. -/
def dbD3 : DB := (updateBookingStatus dbD2 .opd 1 .pending 9).2

/-- An OPD template that is soft-deleted (`is_active = false`) and scheduled
on weekday 3. -/
def tplInactive : SlotTemplate := ⟨1, 3, 5, false⟩

/-- Initial state whose only template is inactive and whose date 5 (weekday
5 mod 7 = 5, mismatching the template's weekday 3) is admin-blocked. -/
def dbE0 : DB := initDB [tplInactive] [] [5]

/-! Characterization lemmas for the allocation procedures: one equation per
exit path, in the order the source evaluates the checks. -/

/-- Unknown template id: the first check fails. -/
theorem book_opd_slot_templateNotFound (db : DB) (pid date tid : Nat)
    (h : findTemplate db.opd_slot_templates tid = none) :
    book_opd_slot db pid date tid = (.err "Template not found", db) := by
  simp [book_opd_slot, h]

/-- Capacity exhausted: rejected with the SlotFull message, state unchanged. -/
theorem book_opd_slot_full (db : DB) (pid date tid : Nat) (tpl : SlotTemplate)
    (h : findTemplate db.opd_slot_templates tid = some tpl)
    (hcap : tpl.max_slots ≤ opdBookedCount db date tid) :
    book_opd_slot db pid date tid = (.err "Slot is fully booked", db) := by
  simp [book_opd_slot, h, hcap]

/-- Patient already holds a non-terminal OPD booking on the date (and capacity
remains): rejected, state unchanged. -/
theorem book_opd_slot_patientOpd (db : DB) (pid date tid : Nat) (tpl : SlotTemplate)
    (h : findTemplate db.opd_slot_templates tid = some tpl)
    (hcap : opdBookedCount db date tid < tpl.max_slots)
    (hhas : patientHasOpdBooking db pid date = true) :
    book_opd_slot db pid date tid =
      (.err "You already have an OPD booking on this date", db) := by
  simp [book_opd_slot, h, Nat.not_le.mpr hcap, hhas]

/-- Patient already holds a non-terminal clinic booking on the date (and the
OPD check passed): rejected, state unchanged. -/
theorem book_opd_slot_patientClinic (db : DB) (pid date tid : Nat) (tpl : SlotTemplate)
    (h : findTemplate db.opd_slot_templates tid = some tpl)
    (hcap : opdBookedCount db date tid < tpl.max_slots)
    (hopd : patientHasOpdBooking db pid date = false)
    (hcl : patientHasClinicBooking db pid date = true) :
    book_opd_slot db pid date tid =
      (.err "You already have a clinic booking on this date", db) := by
  simp [book_opd_slot, h, Nat.not_le.mpr hcap, hopd, hcl]

/-- All business checks pass but the computed slot number collides with an
existing row: the INSERT raises the unique-constraint error and the
transaction rolls back. -/
theorem book_opd_slot_conflict (db : DB) (pid date tid : Nat) (tpl : SlotTemplate)
    (h : findTemplate db.opd_slot_templates tid = some tpl)
    (hcap : opdBookedCount db date tid < tpl.max_slots)
    (hopd : patientHasOpdBooking db pid date = false)
    (hcl : patientHasClinicBooking db pid date = false)
    (htaken : opdSlotTaken db date tid (opdBookedCount db date tid + 1) = true) :
    book_opd_slot db pid date tid = (.dbError opdUniqueViolationMsg, db) := by
  simp [book_opd_slot, h, Nat.not_le.mpr hcap, hopd, hcl, htaken]

/-- Successful allocation: slot number `count + 1` is assigned and one pending
row is appended. -/
theorem book_opd_slot_success (db : DB) (pid date tid : Nat) (tpl : SlotTemplate)
    (h : findTemplate db.opd_slot_templates tid = some tpl)
    (hcap : opdBookedCount db date tid < tpl.max_slots)
    (hopd : patientHasOpdBooking db pid date = false)
    (hcl : patientHasClinicBooking db pid date = false)
    (htaken : opdSlotTaken db date tid (opdBookedCount db date tid + 1) = false) :
    book_opd_slot db pid date tid =
      (.ok db.next_id (opdBookedCount db date tid + 1),
       { db with
           opd_bookings := db.opd_bookings ++
             [⟨db.next_id, pid, date, tid, opdBookedCount db date tid + 1,
               .pending, none, none⟩],
           next_id := db.next_id + 1 }) := by
  simp [book_opd_slot, h, Nat.not_le.mpr hcap, hopd, hcl, htaken]

/-- Unknown clinic template id. -/
theorem book_clinic_slot_templateNotFound (db : DB) (pid cid date tid : Nat)
    (h : findTemplate db.clinic_slot_templates tid = none) :
    book_clinic_slot db pid cid date tid = (.err "Template not found", db) := by
  simp [book_clinic_slot, h]

/-- Clinic capacity exhausted: rejected with the SlotFull message. -/
theorem book_clinic_slot_full (db : DB) (pid cid date tid : Nat) (tpl : SlotTemplate)
    (h : findTemplate db.clinic_slot_templates tid = some tpl)
    (hcap : tpl.max_slots ≤ clinicBookedCount db date tid) :
    book_clinic_slot db pid cid date tid = (.err "Slot is fully booked", db) := by
  simp [book_clinic_slot, h, hcap]

/-- Patient already holds a non-terminal OPD booking on the date: the clinic
allocation is rejected. -/
theorem book_clinic_slot_patientOpd (db : DB) (pid cid date tid : Nat) (tpl : SlotTemplate)
    (h : findTemplate db.clinic_slot_templates tid = some tpl)
    (hcap : clinicBookedCount db date tid < tpl.max_slots)
    (hhas : patientHasOpdBooking db pid date = true) :
    book_clinic_slot db pid cid date tid =
      (.err "You already have an OPD booking on this date", db) := by
  simp [book_clinic_slot, h, Nat.not_le.mpr hcap, hhas]

/-- Patient already holds a non-terminal clinic booking on the date. -/
theorem book_clinic_slot_patientClinic (db : DB) (pid cid date tid : Nat) (tpl : SlotTemplate)
    (h : findTemplate db.clinic_slot_templates tid = some tpl)
    (hcap : clinicBookedCount db date tid < tpl.max_slots)
    (hopd : patientHasOpdBooking db pid date = false)
    (hcl : patientHasClinicBooking db pid date = true) :
    book_clinic_slot db pid cid date tid =
      (.err "You already have a clinic booking on this date", db) := by
  simp [book_clinic_slot, h, Nat.not_le.mpr hcap, hopd, hcl]

/-- Clinic INSERT slot-number collision: storage error, rollback. -/
theorem book_clinic_slot_conflict (db : DB) (pid cid date tid : Nat) (tpl : SlotTemplate)
    (h : findTemplate db.clinic_slot_templates tid = some tpl)
    (hcap : clinicBookedCount db date tid < tpl.max_slots)
    (hopd : patientHasOpdBooking db pid date = false)
    (hcl : patientHasClinicBooking db pid date = false)
    (htaken : clinicSlotTaken db date tid (clinicBookedCount db date tid + 1) = true) :
    book_clinic_slot db pid cid date tid = (.dbError clinicUniqueViolationMsg, db) := by
  simp [book_clinic_slot, h, Nat.not_le.mpr hcap, hopd, hcl, htaken]

/-- Successful clinic allocation. -/
theorem book_clinic_slot_success (db : DB) (pid cid date tid : Nat) (tpl : SlotTemplate)
    (h : findTemplate db.clinic_slot_templates tid = some tpl)
    (hcap : clinicBookedCount db date tid < tpl.max_slots)
    (hopd : patientHasOpdBooking db pid date = false)
    (hcl : patientHasClinicBooking db pid date = false)
    (htaken : clinicSlotTaken db date tid (clinicBookedCount db date tid + 1) = false) :
    book_clinic_slot db pid cid date tid =
      (.ok db.next_id (clinicBookedCount db date tid + 1),
       { db with
           clinic_bookings := db.clinic_bookings ++
             [⟨db.next_id, pid, cid, date, tid, clinicBookedCount db date tid + 1,
               .pending, none, none⟩],
           next_id := db.next_id + 1 }) := by
  simp [book_clinic_slot, h, Nat.not_le.mpr hcap, hopd, hcl, htaken]

/-! Reachability of the concrete scenario states. -/

/-- The spec's concrete scenario state (slots 1 and 2 booked, slot 1 then
cancelled) is reachable from the empty capacity-2 configuration. -/
theorem reachable_dbC3 : Reachable dbC0 dbC3 := by
  have h1 : Step dbC0 dbC1 := Step.book_opd dbC0 1 5 1
  have h2 : Step dbC1 dbC2 := Step.book_opd dbC1 2 5 1
  have h3 : Step dbC2 dbC3 := Step.cancel_opd dbC2 1 1 "Cancelled by patient"
  exact Relation.ReflTransGen.tail (Relation.ReflTransGen.tail
    (Relation.ReflTransGen.tail Relation.ReflTransGen.refl h1) h2) h3

/-- The single-booking state on the capacity-1 template is reachable. -/
theorem reachable_dbD1 : Reachable dbD0 dbD1 :=
  Relation.ReflTransGen.tail Relation.ReflTransGen.refl (Step.book_opd dbD0 1 5 1)

/-- The completed-then-reopened state is reachable: book, mark completed,
mark pending again. -/
theorem reachable_dbD3 : Reachable dbD0 dbD3 := by
  have h2 : Step dbD1 dbD2 := Step.update_status dbD1 .opd 1 .completed 9
  have h3 : Step dbD2 dbD3 := Step.update_status dbD2 .opd 1 .pending 9
  exact Relation.ReflTransGen.tail (Relation.ReflTransGen.tail reachable_dbD1 h2) h3

/-- C1: in the spec's own scenario — bookings with slot numbers 1 and 2 exist
and the slot-1 booking has been cancelled — the next allocation request does
not succeed with slot number 3: the procedure computes slot number
`1 + (non-terminal count) = 2`, which collides with the live slot-2 row's
unique key, so the INSERT raises the unique-constraint error and no booking
is created. The code cannot realize the claimed never-reuse behaviour. -/
theorem book_after_cancel_raises_unique_violation :
    Reachable dbC0 dbC3 ∧
    dbC3.opd_bookings.map (fun b => (b.slot_number, b.status)) =
      [(1, .cancelled), (2, .pending)] ∧
    opdBookedCount dbC3 5 1 = 1 ∧
    book_opd_slot dbC3 4 5 1 = (.dbError opdUniqueViolationMsg, dbC3) :=
  ⟨reachable_dbC3, by decide, by decide, by decide⟩

/-- C2 counterexample: after the reachable sequence book–book–cancel, the
non-cancelled bookings of the slot instance hold slot numbers {2}, not
{1, ..., N} = {1}: cancellation leaves a gap, refuting the claimed
invariant. -/
theorem nonCancelled_slots_gap_after_cancel :
    Reachable dbC0 dbC3 ∧ specNonCancelledSlotsComplete dbC3 5 1 = false :=
  ⟨reachable_dbC3, by decide⟩

/-- C4 counterexample: patient 1 already holds a non-terminal booking on
date 5, yet the repeat attempt is rejected with the SlotFull message, not the
PatientAlreadyBooked one, because the capacity check runs first and the
template is full. -/
theorem patientAlreadyBooked_preempted_by_slotFull :
    Reachable dbD0 dbD1 ∧
    patientHasOpdBooking dbD1 1 5 = true ∧
    book_opd_slot dbD1 1 5 1 = (.err "Slot is fully booked", dbD1) :=
  ⟨reachable_dbD1, by decide, by decide⟩

/-- C5 counterexample: date 5 is admin-blocked, its weekday mismatches the
template's, and the template is soft-deleted (`is_active = false`); the
allocation nevertheless succeeds and creates a booking — the procedure
performs no date-policy check and no active-flag check. -/
theorem blocked_date_booking_succeeds :
    5 ∈ dbE0.blocked_dates ∧
    findTemplate dbE0.opd_slot_templates 1 = some tplInactive ∧
    tplInactive.is_active = false ∧
    tplInactive.day_of_week ≠ 5 % 7 ∧
    (book_opd_slot dbE0 1 5 1).1 = .ok 1 1 ∧
    (book_opd_slot dbE0 1 5 1).2.opd_bookings.map
      (fun b => (b.patient_id, b.booking_date, b.slot_number)) = [(1, 5, 1)] := by
  refine ⟨by decide, by decide, by decide, by decide, by decide, by decide⟩

/-- C7 counterexample: with only 3600 seconds (1 hour) remaining before the
slot — inside the 2-hour cutoff, as the UI helper itself reports —
`cancelOPDBooking` still cancels the pending booking and returns
`{error: null}`; no CancellationWindowExpired rejection exists. -/
theorem cancellation_inside_window_still_cancels :
    canCancelBooking 3600 = false ∧
    (cancelOPDBooking dbD1 1 1 "Cancelled by patient").1 = none ∧
    (cancelOPDBooking dbD1 1 1 "Cancelled by patient").2.opd_bookings.map
      (fun b => b.status) = [.cancelled] :=
  ⟨by decide, by decide, by decide⟩

/-- C8 counterexample: a booking in the terminal status `completed` is moved
back to `pending` by a subsequent `updateBookingStatus` call, along a
reachable sequence of operations — terminal states are not final. -/
theorem terminal_status_overwritten :
    Reachable dbD0 dbD3 ∧
    dbD2.opd_bookings.map (fun b => b.status) = [.completed] ∧
    Status.isTerminal .completed = true ∧
    dbD3.opd_bookings.map (fun b => b.status) = [.pending] :=
  ⟨reachable_dbD3, by decide, by decide, by decide⟩

/-- C9 counterexample: in the reachable post-cancellation state, the
storage-level unique-constraint conflict is handed to the caller verbatim as
`{data: null, error: <raw storage message>}` — not mapped to the SlotFull
rejection 'Slot is fully booked'. -/
theorem raw_constraint_error_reaches_caller :
    Reachable dbC0 dbC3 ∧
    (bookOPDSlot dbC3 4 5 1).1 = ⟨none, some opdUniqueViolationMsg⟩ ∧
    opdUniqueViolationMsg ≠ "Slot is fully booked" ∧
    (bookOPDSlot dbC3 4 5 1).2 = dbC3 :=
  ⟨reachable_dbC3, by decide, by decide, by decide⟩

/-! Ledger-invariant machinery: the slot numbers over all rows of a slot
instance always form `1..M`, and `M` stays within the template capacity. -/

/-- The non-terminal count is at most the total row count of the slot
instance. -/
theorem opdBookedCount_le (db : DB) (date tid : Nat) :
    opdBookedCount db date tid ≤ (slotRows db.opd_bookings date tid).length := by
  unfold opdBookedCount slotRows
  have h : (fun b : Booking =>
        b.booking_date == date && b.template_id == tid && b.status.nonTerminal)
      = fun b : Booking =>
        b.status.nonTerminal && (b.booking_date == date && b.template_id == tid) := by
    funext b
    rw [Bool.and_comm]
  rw [h, ← List.filter_filter]
  exact List.length_filter_le _ _

/-- Clinic version of `opdBookedCount_le`. -/
theorem clinicBookedCount_le (db : DB) (date tid : Nat) :
    clinicBookedCount db date tid ≤ (cSlotRows db.clinic_bookings date tid).length := by
  unfold clinicBookedCount cSlotRows
  have h : (fun b : ClinicBooking =>
        b.booking_date == date && b.template_id == tid && b.status.nonTerminal)
      = fun b : ClinicBooking =>
        b.status.nonTerminal && (b.booking_date == date && b.template_id == tid) := by
    funext b
    rw [Bool.and_comm]
  rw [h, ← List.filter_filter]
  exact List.length_filter_le _ _

/-- Appending one row extends the slot instance exactly when the keys match. -/
theorem slotRows_append (l : List Booking) (b : Booking) (date tid : Nat) :
    slotRows (l ++ [b]) date tid =
      slotRows l date tid ++
        (if b.booking_date == date && b.template_id == tid then [b] else []) := by
  simp only [slotRows, List.filter_append, List.filter_cons, List.filter_nil]

/-- Clinic version of `slotRows_append`. -/
theorem cSlotRows_append (l : List ClinicBooking) (b : ClinicBooking) (date tid : Nat) :
    cSlotRows (l ++ [b]) date tid =
      cSlotRows l date tid ++
        (if b.booking_date == date && b.template_id == tid then [b] else []) := by
  simp only [cSlotRows, List.filter_append, List.filter_cons, List.filter_nil]

/-- The unique-key probe holds exactly when the slot number is already present
in the slot instance. -/
theorem opdSlotTaken_iff (db : DB) (date tid s : Nat) :
    opdSlotTaken db date tid s = true ↔
      s ∈ (slotRows db.opd_bookings date tid).map (fun b => b.slot_number) := by
  simp only [opdSlotTaken, slotRows, List.any_eq_true, List.mem_map, List.mem_filter,
    Bool.and_eq_true, beq_iff_eq]
  constructor
  · rintro ⟨b, hb, ⟨h1, h2⟩, h3⟩
    exact ⟨b, ⟨hb, h1, h2⟩, h3⟩
  · rintro ⟨b, ⟨hb, h1, h2⟩, h3⟩
    exact ⟨b, hb, ⟨h1, h2⟩, h3⟩

/-- Clinic version of `opdSlotTaken_iff`. -/
theorem clinicSlotTaken_iff (db : DB) (date tid s : Nat) :
    clinicSlotTaken db date tid s = true ↔
      s ∈ (cSlotRows db.clinic_bookings date tid).map (fun b => b.slot_number) := by
  simp only [clinicSlotTaken, cSlotRows, List.any_eq_true, List.mem_map, List.mem_filter,
    Bool.and_eq_true, beq_iff_eq]
  constructor
  · rintro ⟨b, hb, ⟨h1, h2⟩, h3⟩
    exact ⟨b, ⟨hb, h1, h2⟩, h3⟩
  · rintro ⟨b, ⟨hb, h1, h2⟩, h3⟩
    exact ⟨b, hb, ⟨h1, h2⟩, h3⟩

/-- A row transformation that preserves the key and slot-number columns leaves
each slot instance's slot-number list unchanged. -/
theorem filter_map_slots (g : Booking → Booking)
    (hd : ∀ b, (g b).booking_date = b.booking_date)
    (ht : ∀ b, (g b).template_id = b.template_id)
    (hs : ∀ b, (g b).slot_number = b.slot_number)
    (l : List Booking) (date tid : Nat) :
    (slotRows (l.map g) date tid).map (fun b => b.slot_number) =
      (slotRows l date tid).map (fun b => b.slot_number) := by
  induction l with
  | nil => rfl
  | cons b l ih =>
    simp only [slotRows, List.map_cons, List.filter_cons, hd b, ht b] at *
    by_cases hb : (b.booking_date == date && b.template_id == tid) = true
    · simp only [hb, if_true, List.map_cons, hs b, ih]
    · simp only [Bool.not_eq_true] at hb
      simp only [hb, Bool.false_eq_true, if_false, ih]

/-- Clinic version of `filter_map_slots`. -/
theorem cFilter_map_slots (g : ClinicBooking → ClinicBooking)
    (hd : ∀ b, (g b).booking_date = b.booking_date)
    (ht : ∀ b, (g b).template_id = b.template_id)
    (hs : ∀ b, (g b).slot_number = b.slot_number)
    (l : List ClinicBooking) (date tid : Nat) :
    (cSlotRows (l.map g) date tid).map (fun b => b.slot_number) =
      (cSlotRows l date tid).map (fun b => b.slot_number) := by
  induction l with
  | nil => rfl
  | cons b l ih =>
    simp only [cSlotRows, List.map_cons, List.filter_cons, hd b, ht b] at *
    by_cases hb : (b.booking_date == date && b.template_id == tid) = true
    · simp only [hb, if_true, List.map_cons, hs b, ih]
    · simp only [Bool.not_eq_true] at hb
      simp only [hb, Bool.false_eq_true, if_false, ih]

/-- Every `book_opd_slot` call either leaves the state unchanged or performs
the guarded insert. -/
theorem book_opd_state_cases (db : DB) (pid date tid : Nat) :
    (book_opd_slot db pid date tid).2 = db ∨
    ∃ tpl, findTemplate db.opd_slot_templates tid = some tpl ∧
      opdBookedCount db date tid < tpl.max_slots ∧
      opdSlotTaken db date tid (opdBookedCount db date tid + 1) = false ∧
      (book_opd_slot db pid date tid).2 =
        { db with
            opd_bookings := db.opd_bookings ++
              [⟨db.next_id, pid, date, tid, opdBookedCount db date tid + 1,
                .pending, none, none⟩],
            next_id := db.next_id + 1 } := by
  cases hf : findTemplate db.opd_slot_templates tid with
  | none => left; rw [book_opd_slot_templateNotFound db pid date tid hf]
  | some tpl =>
    by_cases h1 : tpl.max_slots ≤ opdBookedCount db date tid
    · left; rw [book_opd_slot_full db pid date tid tpl hf h1]
    · have h1' := Nat.lt_of_not_le h1
      cases h2 : patientHasOpdBooking db pid date with
      | true => left; rw [book_opd_slot_patientOpd db pid date tid tpl hf h1' h2]
      | false =>
        cases h3 : patientHasClinicBooking db pid date with
        | true => left; rw [book_opd_slot_patientClinic db pid date tid tpl hf h1' h2 h3]
        | false =>
          cases h4 : opdSlotTaken db date tid (opdBookedCount db date tid + 1) with
          | true => left; rw [book_opd_slot_conflict db pid date tid tpl hf h1' h2 h3 h4]
          | false =>
            right
            exact ⟨tpl, rfl, h1', rfl,
              by rw [book_opd_slot_success db pid date tid tpl hf h1' h2 h3 h4]⟩

/-- Every `book_clinic_slot` call either leaves the state unchanged or performs
the guarded insert. -/
theorem book_clinic_state_cases (db : DB) (pid cid date tid : Nat) :
    (book_clinic_slot db pid cid date tid).2 = db ∨
    ∃ tpl, findTemplate db.clinic_slot_templates tid = some tpl ∧
      clinicBookedCount db date tid < tpl.max_slots ∧
      clinicSlotTaken db date tid (clinicBookedCount db date tid + 1) = false ∧
      (book_clinic_slot db pid cid date tid).2 =
        { db with
            clinic_bookings := db.clinic_bookings ++
              [⟨db.next_id, pid, cid, date, tid, clinicBookedCount db date tid + 1,
                .pending, none, none⟩],
            next_id := db.next_id + 1 } := by
  cases hf : findTemplate db.clinic_slot_templates tid with
  | none => left; rw [book_clinic_slot_templateNotFound db pid cid date tid hf]
  | some tpl =>
    by_cases h1 : tpl.max_slots ≤ clinicBookedCount db date tid
    · left; rw [book_clinic_slot_full db pid cid date tid tpl hf h1]
    · have h1' := Nat.lt_of_not_le h1
      cases h2 : patientHasOpdBooking db pid date with
      | true => left; rw [book_clinic_slot_patientOpd db pid cid date tid tpl hf h1' h2]
      | false =>
        cases h3 : patientHasClinicBooking db pid date with
        | true => left; rw [book_clinic_slot_patientClinic db pid cid date tid tpl hf h1' h2 h3]
        | false =>
          cases h4 : clinicSlotTaken db date tid (clinicBookedCount db date tid + 1) with
          | true => left; rw [book_clinic_slot_conflict db pid cid date tid tpl hf h1' h2 h3 h4]
          | false =>
            right
            exact ⟨tpl, rfl, h1', rfl,
              by rw [book_clinic_slot_success db pid cid date tid tpl hf h1' h2 h3 h4]⟩

/-- A successful OPD insert preserves the ledger invariant: the guard forces
the non-terminal count to equal the total row count, so the new slot number
extends `1..M` to `1..M+1` and stays within capacity. -/
theorem ledgerInv_book_opd_success (db : DB) (pid date tid : Nat) (tpl : SlotTemplate)
    (hf : findTemplate db.opd_slot_templates tid = some tpl)
    (hcap : opdBookedCount db date tid < tpl.max_slots)
    (htaken : opdSlotTaken db date tid (opdBookedCount db date tid + 1) = false)
    (hinv : LedgerInv db) :
    LedgerInv { db with
        opd_bookings := db.opd_bookings ++
          [⟨db.next_id, pid, date, tid, opdBookedCount db date tid + 1,
            .pending, none, none⟩],
        next_id := db.next_id + 1 } := by
  set newB : Booking :=
    ⟨db.next_id, pid, date, tid, opdBookedCount db date tid + 1,
      .pending, none, none⟩ with hnewB
  obtain ⟨hopd, hcl⟩ := hinv
  refine ⟨fun date' tid' => ?_, fun date' tid' => hcl date' tid'⟩
  obtain ⟨hperm, hcap'⟩ := hopd date' tid'
  have hrows := slotRows_append db.opd_bookings newB date' tid'
  by_cases hmatch : date = date' ∧ tid = tid'
  · obtain ⟨rfl, rfl⟩ := hmatch
    have hcond : (newB.booking_date == date && newB.template_id == tid) = true := by
      rw [hnewB]
      simp
    rw [if_pos hcond] at hrows
    have hle := opdBookedCount_le db date tid
    have hnotmem : opdBookedCount db date tid + 1 ∉
        (slotRows db.opd_bookings date tid).map (fun b => b.slot_number) := by
      intro hmem
      rw [← opdSlotTaken_iff] at hmem
      rw [htaken] at hmem
      cases hmem
    have hM : opdBookedCount db date tid = (slotRows db.opd_bookings date tid).length := by
      rcases Nat.lt_or_ge (opdBookedCount db date tid)
        (slotRows db.opd_bookings date tid).length with hlt | hge
      · exfalso
        apply hnotmem
        rw [hperm.mem_iff, List.mem_range'_1]
        omega
      · omega
    have hslot : newB.slot_number = opdBookedCount db date tid + 1 := by rw [hnewB]
    constructor
    · show ((slotRows (db.opd_bookings ++ [newB]) date tid).map
          (fun b => b.slot_number)).Perm
        (List.range' 1 (slotRows (db.opd_bookings ++ [newB]) date tid).length)
      rw [hrows, List.map_append, List.length_append]
      simp only [List.map_cons, List.map_nil, List.length_cons, List.length_nil, hslot]
      rw [List.range'_1_concat]
      have h1M : opdBookedCount db date tid + 1 =
          1 + (slotRows db.opd_bookings date tid).length := by omega
      rw [h1M]
      exact hperm.append_right _
    · show ∀ tpl', findTemplate db.opd_slot_templates tid = some tpl' →
          (slotRows (db.opd_bookings ++ [newB]) date tid).length ≤ tpl'.max_slots
      intro tpl' hf'
      have htpl : tpl' = tpl := by
        rw [hf] at hf'
        exact (Option.some.inj hf').symm
      subst htpl
      rw [hrows, List.length_append]
      simp only [List.length_cons, List.length_nil]
      omega
  · have hcond : ¬((newB.booking_date == date' && newB.template_id == tid') = true) := by
      rw [hnewB]
      simp only [Bool.and_eq_true, beq_iff_eq]
      rintro ⟨h1, h2⟩
      exact hmatch ⟨h1, h2⟩
    rw [if_neg hcond, List.append_nil] at hrows
    constructor
    · show ((slotRows (db.opd_bookings ++ [newB]) date' tid').map
          (fun b => b.slot_number)).Perm
        (List.range' 1 (slotRows (db.opd_bookings ++ [newB]) date' tid').length)
      rw [hrows]
      exact hperm
    · show ∀ tpl', findTemplate db.opd_slot_templates tid' = some tpl' →
          (slotRows (db.opd_bookings ++ [newB]) date' tid').length ≤ tpl'.max_slots
      intro tpl' hf'
      rw [hrows]
      exact hcap' tpl' hf'

/-- Clinic version of `ledgerInv_book_opd_success`. -/
theorem ledgerInv_book_clinic_success (db : DB) (pid cid date tid : Nat) (tpl : SlotTemplate)
    (hf : findTemplate db.clinic_slot_templates tid = some tpl)
    (hcap : clinicBookedCount db date tid < tpl.max_slots)
    (htaken : clinicSlotTaken db date tid (clinicBookedCount db date tid + 1) = false)
    (hinv : LedgerInv db) :
    LedgerInv { db with
        clinic_bookings := db.clinic_bookings ++
          [⟨db.next_id, pid, cid, date, tid, clinicBookedCount db date tid + 1,
            .pending, none, none⟩],
        next_id := db.next_id + 1 } := by
  set newB : ClinicBooking :=
    ⟨db.next_id, pid, cid, date, tid, clinicBookedCount db date tid + 1,
      .pending, none, none⟩ with hnewB
  obtain ⟨hopd, hcl⟩ := hinv
  refine ⟨fun date' tid' => hopd date' tid', fun date' tid' => ?_⟩
  obtain ⟨hperm, hcap'⟩ := hcl date' tid'
  have hrows := cSlotRows_append db.clinic_bookings newB date' tid'
  by_cases hmatch : date = date' ∧ tid = tid'
  · obtain ⟨rfl, rfl⟩ := hmatch
    have hcond : (newB.booking_date == date && newB.template_id == tid) = true := by
      rw [hnewB]
      simp
    rw [if_pos hcond] at hrows
    have hle := clinicBookedCount_le db date tid
    have hnotmem : clinicBookedCount db date tid + 1 ∉
        (cSlotRows db.clinic_bookings date tid).map (fun b => b.slot_number) := by
      intro hmem
      rw [← clinicSlotTaken_iff] at hmem
      rw [htaken] at hmem
      cases hmem
    have hM : clinicBookedCount db date tid = (cSlotRows db.clinic_bookings date tid).length := by
      rcases Nat.lt_or_ge (clinicBookedCount db date tid)
        (cSlotRows db.clinic_bookings date tid).length with hlt | hge
      · exfalso
        apply hnotmem
        rw [hperm.mem_iff, List.mem_range'_1]
        omega
      · omega
    have hslot : newB.slot_number = clinicBookedCount db date tid + 1 := by rw [hnewB]
    constructor
    · show ((cSlotRows (db.clinic_bookings ++ [newB]) date tid).map
          (fun b => b.slot_number)).Perm
        (List.range' 1 (cSlotRows (db.clinic_bookings ++ [newB]) date tid).length)
      rw [hrows, List.map_append, List.length_append]
      simp only [List.map_cons, List.map_nil, List.length_cons, List.length_nil, hslot]
      rw [List.range'_1_concat]
      have h1M : clinicBookedCount db date tid + 1 =
          1 + (cSlotRows db.clinic_bookings date tid).length := by omega
      rw [h1M]
      exact hperm.append_right _
    · show ∀ tpl', findTemplate db.clinic_slot_templates tid = some tpl' →
          (cSlotRows (db.clinic_bookings ++ [newB]) date tid).length ≤ tpl'.max_slots
      intro tpl' hf'
      have htpl : tpl' = tpl := by
        rw [hf] at hf'
        exact (Option.some.inj hf').symm
      subst htpl
      rw [hrows, List.length_append]
      simp only [List.length_cons, List.length_nil]
      omega
  · have hcond : ¬((newB.booking_date == date' && newB.template_id == tid') = true) := by
      rw [hnewB]
      simp only [Bool.and_eq_true, beq_iff_eq]
      rintro ⟨h1, h2⟩
      exact hmatch ⟨h1, h2⟩
    rw [if_neg hcond, List.append_nil] at hrows
    constructor
    · show ((cSlotRows (db.clinic_bookings ++ [newB]) date' tid').map
          (fun b => b.slot_number)).Perm
        (List.range' 1 (cSlotRows (db.clinic_bookings ++ [newB]) date' tid').length)
      rw [hrows]
      exact hperm
    · show ∀ tpl', findTemplate db.clinic_slot_templates tid' = some tpl' →
          (cSlotRows (db.clinic_bookings ++ [newB]) date' tid').length ≤ tpl'.max_slots
      intro tpl' hf'
      rw [hrows]
      exact hcap' tpl' hf'

/-- A key/slot-preserving row rewrite (such as a status update) preserves the
ledger invariant on the OPD side. -/
theorem ledgerInv_map_opd (db : DB) (g : Booking → Booking)
    (hd : ∀ b, (g b).booking_date = b.booking_date)
    (ht : ∀ b, (g b).template_id = b.template_id)
    (hs : ∀ b, (g b).slot_number = b.slot_number)
    (hinv : LedgerInv db) :
    LedgerInv { db with opd_bookings := db.opd_bookings.map g } := by
  obtain ⟨hopd, hcl⟩ := hinv
  refine ⟨fun date tid => ?_, fun date tid => hcl date tid⟩
  obtain ⟨hperm, hcap'⟩ := hopd date tid
  have hmap := filter_map_slots g hd ht hs db.opd_bookings date tid
  have hlen : (slotRows (db.opd_bookings.map g) date tid).length =
      (slotRows db.opd_bookings date tid).length := by
    have h2 := congrArg List.length hmap
    simpa using h2
  constructor
  · show ((slotRows (db.opd_bookings.map g) date tid).map (fun b => b.slot_number)).Perm
      (List.range' 1 (slotRows (db.opd_bookings.map g) date tid).length)
    rw [hmap, hlen]
    exact hperm
  · show ∀ tpl, findTemplate db.opd_slot_templates tid = some tpl →
        (slotRows (db.opd_bookings.map g) date tid).length ≤ tpl.max_slots
    intro tpl hf
    rw [hlen]
    exact hcap' tpl hf

/-- Clinic version of `ledgerInv_map_opd`. -/
theorem ledgerInv_map_clinic (db : DB) (g : ClinicBooking → ClinicBooking)
    (hd : ∀ b, (g b).booking_date = b.booking_date)
    (ht : ∀ b, (g b).template_id = b.template_id)
    (hs : ∀ b, (g b).slot_number = b.slot_number)
    (hinv : LedgerInv db) :
    LedgerInv { db with clinic_bookings := db.clinic_bookings.map g } := by
  obtain ⟨hopd, hcl⟩ := hinv
  refine ⟨fun date tid => hopd date tid, fun date tid => ?_⟩
  obtain ⟨hperm, hcap'⟩ := hcl date tid
  have hmap := cFilter_map_slots g hd ht hs db.clinic_bookings date tid
  have hlen : (cSlotRows (db.clinic_bookings.map g) date tid).length =
      (cSlotRows db.clinic_bookings date tid).length := by
    have h2 := congrArg List.length hmap
    simpa using h2
  constructor
  · show ((cSlotRows (db.clinic_bookings.map g) date tid).map (fun b => b.slot_number)).Perm
      (List.range' 1 (cSlotRows (db.clinic_bookings.map g) date tid).length)
    rw [hmap, hlen]
    exact hperm
  · show ∀ tpl, findTemplate db.clinic_slot_templates tid = some tpl →
        (cSlotRows (db.clinic_bookings.map g) date tid).length ≤ tpl.max_slots
    intro tpl hf
    rw [hlen]
    exact hcap' tpl hf

/-- The patient-cancellation row rewrite only touches the status and reason
columns. -/
theorem cancel_row_preserves (bid pid : Nat) (reason : String) (b : Booking) :
    (if cancelMatch bid pid b.id b.patient_id b.status then
        { b with status := Status.cancelled, cancellation_reason := some reason }
      else b).booking_date = b.booking_date ∧
    (if cancelMatch bid pid b.id b.patient_id b.status then
        { b with status := Status.cancelled, cancellation_reason := some reason }
      else b).template_id = b.template_id ∧
    (if cancelMatch bid pid b.id b.patient_id b.status then
        { b with status := Status.cancelled, cancellation_reason := some reason }
      else b).slot_number = b.slot_number := by
  by_cases h : cancelMatch bid pid b.id b.patient_id b.status = true
  · rw [if_pos h]
    exact ⟨rfl, rfl, rfl⟩
  · rw [if_neg h]
    exact ⟨rfl, rfl, rfl⟩

/-- Clinic version of `cancel_row_preserves`. -/
theorem cancel_crow_preserves (bid pid : Nat) (reason : String) (b : ClinicBooking) :
    (if cancelMatch bid pid b.id b.patient_id b.status then
        { b with status := Status.cancelled, cancellation_reason := some reason }
      else b).booking_date = b.booking_date ∧
    (if cancelMatch bid pid b.id b.patient_id b.status then
        { b with status := Status.cancelled, cancellation_reason := some reason }
      else b).template_id = b.template_id ∧
    (if cancelMatch bid pid b.id b.patient_id b.status then
        { b with status := Status.cancelled, cancellation_reason := some reason }
      else b).slot_number = b.slot_number := by
  by_cases h : cancelMatch bid pid b.id b.patient_id b.status = true
  · rw [if_pos h]
    exact ⟨rfl, rfl, rfl⟩
  · rw [if_neg h]
    exact ⟨rfl, rfl, rfl⟩

/-- The staff status-update row rewrite only touches the status and
verified-by columns. -/
theorem update_row_preserves (bid : Nat) (st : Status) (adminId : Nat) (b : Booking) :
    (if b.id == bid then
        { b with
            status := st,
            verified_by := (if st == Status.verified then some adminId else b.verified_by) }
      else b).booking_date = b.booking_date ∧
    (if b.id == bid then
        { b with
            status := st,
            verified_by := (if st == Status.verified then some adminId else b.verified_by) }
      else b).template_id = b.template_id ∧
    (if b.id == bid then
        { b with
            status := st,
            verified_by := (if st == Status.verified then some adminId else b.verified_by) }
      else b).slot_number = b.slot_number := by
  by_cases h : (b.id == bid) = true
  · rw [if_pos h]
    exact ⟨rfl, rfl, rfl⟩
  · rw [if_neg h]
    exact ⟨rfl, rfl, rfl⟩

/-- Clinic version of `update_row_preserves`. -/
theorem update_crow_preserves (bid : Nat) (st : Status) (adminId : Nat) (b : ClinicBooking) :
    (if b.id == bid then
        { b with
            status := st,
            verified_by := (if st == Status.verified then some adminId else b.verified_by) }
      else b).booking_date = b.booking_date ∧
    (if b.id == bid then
        { b with
            status := st,
            verified_by := (if st == Status.verified then some adminId else b.verified_by) }
      else b).template_id = b.template_id ∧
    (if b.id == bid then
        { b with
            status := st,
            verified_by := (if st == Status.verified then some adminId else b.verified_by) }
      else b).slot_number = b.slot_number := by
  by_cases h : (b.id == bid) = true
  · rw [if_pos h]
    exact ⟨rfl, rfl, rfl⟩
  · rw [if_neg h]
    exact ⟨rfl, rfl, rfl⟩

/-- Every single operation of the booking core preserves the ledger
invariant. -/
theorem step_ledgerInv {s s' : DB} (h : Step s s') (hinv : LedgerInv s) : LedgerInv s' := by
  cases h with
  | book_opd pid date tid =>
    rcases book_opd_state_cases s pid date tid with heq | ⟨tpl, hfind, hcap, htaken, heq⟩
    · rw [heq]
      exact hinv
    · rw [heq]
      exact ledgerInv_book_opd_success s pid date tid tpl hfind hcap htaken hinv
  | book_clinic pid cid date tid =>
    rcases book_clinic_state_cases s pid cid date tid with heq | ⟨tpl, hfind, hcap, htaken, heq⟩
    · rw [heq]
      exact hinv
    · rw [heq]
      exact ledgerInv_book_clinic_success s pid cid date tid tpl hfind hcap htaken hinv
  | cancel_opd bid pid reason =>
    exact ledgerInv_map_opd s _
      (fun b => (cancel_row_preserves bid pid reason b).1)
      (fun b => (cancel_row_preserves bid pid reason b).2.1)
      (fun b => (cancel_row_preserves bid pid reason b).2.2)
      hinv
  | cancel_clinic bid pid reason =>
    exact ledgerInv_map_clinic s _
      (fun b => (cancel_crow_preserves bid pid reason b).1)
      (fun b => (cancel_crow_preserves bid pid reason b).2.1)
      (fun b => (cancel_crow_preserves bid pid reason b).2.2)
      hinv
  | update_status bt bid st adminId =>
    cases bt with
    | opd =>
      exact ledgerInv_map_opd s _
        (fun b => (update_row_preserves bid st adminId b).1)
        (fun b => (update_row_preserves bid st adminId b).2.1)
        (fun b => (update_row_preserves bid st adminId b).2.2)
        hinv
    | clinic =>
      exact ledgerInv_map_clinic s _
        (fun b => (update_crow_preserves bid st adminId b).1)
        (fun b => (update_crow_preserves bid st adminId b).2.1)
        (fun b => (update_crow_preserves bid st adminId b).2.2)
        hinv

/-- The ledger invariant holds in any initial (empty-ledger) state. -/
theorem ledgerInv_init (opdT clinicT : List SlotTemplate) (blocked : List Nat) :
    LedgerInv (initDB opdT clinicT blocked) := by
  refine ⟨fun date tid => ⟨?_, ?_⟩, fun date tid => ⟨?_, ?_⟩⟩ <;>
    simp [initDB, slotRows, cSlotRows]

/-- The ledger invariant holds in every reachable state. -/
theorem reachable_ledgerInv (opdT clinicT : List SlotTemplate) (blocked : List Nat) (s : DB)
    (h : Reachable (initDB opdT clinicT blocked) s) : LedgerInv s := by
  have h' : Relation.ReflTransGen Step (initDB opdT clinicT blocked) s := h
  clear h
  induction h' with
  | refl => exact ledgerInv_init opdT clinicT blocked
  | tail hab hbc ih => exact step_ledgerInv hbc ih

/-- C2 (amended): in every reachable state and for every (date, template) slot
instance, the slot numbers over all bookings of the instance — regardless of
status — are exactly {1, ..., M} for M the total number of such bookings (for
both ledgers), and the slot numbers among non-cancelled bookings are pairwise
distinct; cancellation preserves this but can leave gaps in the non-cancelled
set, so {1..N} completeness holds for all rows, not for the non-cancelled
subset. -/
theorem slot_numbers_complete_over_all_bookings
    (opdT clinicT : List SlotTemplate) (blocked : List Nat) (s : DB)
    (h : Reachable (initDB opdT clinicT blocked) s) (date tid : Nat) :
    ((slotRows s.opd_bookings date tid).map (fun b => b.slot_number)).Perm
      (List.range' 1 (slotRows s.opd_bookings date tid).length) ∧
    (((slotRows s.opd_bookings date tid).filter
        (fun b => !(b.status == Status.cancelled))).map
      (fun b => b.slot_number)).Nodup ∧
    ((cSlotRows s.clinic_bookings date tid).map (fun b => b.slot_number)).Perm
      (List.range' 1 (cSlotRows s.clinic_bookings date tid).length) := by
  have hinv := reachable_ledgerInv opdT clinicT blocked s h
  obtain ⟨hopd, hcl⟩ := hinv
  obtain ⟨hperm, h2⟩ := hopd date tid
  obtain ⟨hpermc, h3⟩ := hcl date tid
  refine ⟨hperm, ?_, hpermc⟩
  have hnodup : ((slotRows s.opd_bookings date tid).map (fun b => b.slot_number)).Nodup := by
    rw [hperm.nodup_iff]
    exact List.nodup_range' _ _
  have hsub : (((slotRows s.opd_bookings date tid).filter
      (fun b => !(b.status == Status.cancelled))).map (fun b => b.slot_number)).Sublist
      ((slotRows s.opd_bookings date tid).map (fun b => b.slot_number)) :=
    (List.filter_sublist _).map _
  exact hnodup.sublist hsub

/-- Witness for `slot_numbers_complete_over_all_bookings` at the concrete
reachable post-cancellation state. -/
theorem slot_numbers_complete_over_all_bookings_witness :
    ((slotRows dbC3.opd_bookings 5 1).map (fun b => b.slot_number)).Perm
      (List.range' 1 (slotRows dbC3.opd_bookings 5 1).length) ∧
    (((slotRows dbC3.opd_bookings 5 1).filter
        (fun b => !(b.status == Status.cancelled))).map
      (fun b => b.slot_number)).Nodup ∧
    ((cSlotRows dbC3.clinic_bookings 5 1).map (fun b => b.slot_number)).Perm
      (List.range' 1 (cSlotRows dbC3.clinic_bookings 5 1).length) :=
  slot_numbers_complete_over_all_bookings [tplTwo] [] [] dbC3 reachable_dbC3 5 1

/-- C3: in every reachable state the non-terminal booking count of each slot
instance never exceeds the owning template's capacity (both categories), and
any allocation attempt made while the count is at least the capacity is
rejected with the 'Slot is fully booked' outcome and leaves the state
unchanged (both procedures). -/
theorem capacity_bound_and_slotFull_rejection :
    (∀ opdT clinicT blocked s, Reachable (initDB opdT clinicT blocked) s →
      ∀ date tid tpl, findTemplate s.opd_slot_templates tid = some tpl →
        opdBookedCount s date tid ≤ tpl.max_slots) ∧
    (∀ opdT clinicT blocked s, Reachable (initDB opdT clinicT blocked) s →
      ∀ date tid tpl, findTemplate s.clinic_slot_templates tid = some tpl →
        clinicBookedCount s date tid ≤ tpl.max_slots) ∧
    (∀ db pid date tid tpl, findTemplate db.opd_slot_templates tid = some tpl →
      tpl.max_slots ≤ opdBookedCount db date tid →
      book_opd_slot db pid date tid = (.err "Slot is fully booked", db)) ∧
    (∀ db pid cid date tid tpl, findTemplate db.clinic_slot_templates tid = some tpl →
      tpl.max_slots ≤ clinicBookedCount db date tid →
      book_clinic_slot db pid cid date tid = (.err "Slot is fully booked", db)) := by
  refine ⟨?_, ?_, book_opd_slot_full, book_clinic_slot_full⟩
  · intro opdT clinicT blocked s h date tid tpl hf
    have hinv := reachable_ledgerInv opdT clinicT blocked s h
    have hle := opdBookedCount_le s date tid
    have hcap := (hinv.1 date tid).2 tpl hf
    omega
  · intro opdT clinicT blocked s h date tid tpl hf
    have hinv := reachable_ledgerInv opdT clinicT blocked s h
    have hle := clinicBookedCount_le s date tid
    have hcap := (hinv.2 date tid).2 tpl hf
    omega

/-- Witness for `capacity_bound_and_slotFull_rejection` at the concrete
capacity-1 state with its single slot taken. -/
theorem capacity_bound_and_slotFull_rejection_witness :
    opdBookedCount dbD1 5 1 ≤ tplOne.max_slots ∧
    book_opd_slot dbD1 2 5 1 = (.err "Slot is fully booked", dbD1) :=
  ⟨capacity_bound_and_slotFull_rejection.1 [tplOne] [] [] dbD1 reachable_dbD1 5 1 tplOne
      (by decide),
   capacity_bound_and_slotFull_rejection.2.2.1 dbD1 2 5 1 tplOne (by decide) (by decide)⟩

/-- C4 (amended): provided the template exists and its capacity is not yet
exhausted — the capacity check runs before the patient check, so a full slot
is reported as SlotFull even to an already-booked patient — an allocation
attempt of either category by a patient holding a non-terminal booking of
either category on the date is rejected with one of the two already-booked
messages, and no booking row is created. -/
theorem patient_exclusivity_rejection :
    (∀ db pid date tid tpl, findTemplate db.opd_slot_templates tid = some tpl →
      opdBookedCount db date tid < tpl.max_slots →
      (patientHasOpdBooking db pid date = true ∨ patientHasClinicBooking db pid date = true) →
      ((book_opd_slot db pid date tid).1 = .err "You already have an OPD booking on this date" ∨
        (book_opd_slot db pid date tid).1 =
          .err "You already have a clinic booking on this date") ∧
      (book_opd_slot db pid date tid).2 = db) ∧
    (∀ db pid cid date tid tpl, findTemplate db.clinic_slot_templates tid = some tpl →
      clinicBookedCount db date tid < tpl.max_slots →
      (patientHasOpdBooking db pid date = true ∨ patientHasClinicBooking db pid date = true) →
      ((book_clinic_slot db pid cid date tid).1 =
          .err "You already have an OPD booking on this date" ∨
        (book_clinic_slot db pid cid date tid).1 =
          .err "You already have a clinic booking on this date") ∧
      (book_clinic_slot db pid cid date tid).2 = db) := by
  constructor
  · intro db pid date tid tpl hf hcap hhas
    cases h2 : patientHasOpdBooking db pid date with
    | true =>
      rw [book_opd_slot_patientOpd db pid date tid tpl hf hcap h2]
      exact ⟨Or.inl rfl, rfl⟩
    | false =>
      cases h3 : patientHasClinicBooking db pid date with
      | true =>
        rw [book_opd_slot_patientClinic db pid date tid tpl hf hcap h2 h3]
        exact ⟨Or.inr rfl, rfl⟩
      | false =>
        rcases hhas with hh | hh
        · rw [h2] at hh
          simp at hh
        · rw [h3] at hh
          simp at hh
  · intro db pid cid date tid tpl hf hcap hhas
    cases h2 : patientHasOpdBooking db pid date with
    | true =>
      rw [book_clinic_slot_patientOpd db pid cid date tid tpl hf hcap h2]
      exact ⟨Or.inl rfl, rfl⟩
    | false =>
      cases h3 : patientHasClinicBooking db pid date with
      | true =>
        rw [book_clinic_slot_patientClinic db pid cid date tid tpl hf hcap h2 h3]
        exact ⟨Or.inr rfl, rfl⟩
      | false =>
        rcases hhas with hh | hh
        · rw [h2] at hh
          simp at hh
        · rw [h3] at hh
          simp at hh

/-- Witness for `patient_exclusivity_rejection`: patient 1 of the capacity-2
scenario attempts a second booking while slot capacity remains. -/
theorem patient_exclusivity_rejection_witness :
    ((book_opd_slot dbC1 1 5 1).1 = .err "You already have an OPD booking on this date" ∨
      (book_opd_slot dbC1 1 5 1).1 = .err "You already have a clinic booking on this date") ∧
    (book_opd_slot dbC1 1 5 1).2 = dbC1 :=
  patient_exclusivity_rejection.1 dbC1 1 5 1 tplTwo (by decide) (by decide)
    (Or.inl (by decide))

/-- C5 (amended): the allocation procedure evaluates its checks in the order
(1) template row exists — the `is_active` flag is not consulted — else
'Template not found'; (2) capacity, else 'Slot is fully booked'; (3) patient
has an OPD booking on the date; (4) patient has a clinic booking on the date;
there is no Calendar-Date-Policy check: the outcome is entirely independent
of the blocked-dates table (and the procedure receives no clock, so past and
horizon bounds cannot be and are not enforced); date validation happens only
in the calendar UI. -/
theorem allocation_check_order :
    (∀ db pid date tid, findTemplate db.opd_slot_templates tid = none →
      book_opd_slot db pid date tid = (.err "Template not found", db)) ∧
    (∀ db pid date tid tpl, findTemplate db.opd_slot_templates tid = some tpl →
      tpl.max_slots ≤ opdBookedCount db date tid →
      book_opd_slot db pid date tid = (.err "Slot is fully booked", db)) ∧
    (∀ db pid date tid tpl, findTemplate db.opd_slot_templates tid = some tpl →
      opdBookedCount db date tid < tpl.max_slots →
      patientHasOpdBooking db pid date = true →
      book_opd_slot db pid date tid =
        (.err "You already have an OPD booking on this date", db)) ∧
    (∀ db pid date tid tpl, findTemplate db.opd_slot_templates tid = some tpl →
      opdBookedCount db date tid < tpl.max_slots →
      patientHasOpdBooking db pid date = false →
      patientHasClinicBooking db pid date = true →
      book_opd_slot db pid date tid =
        (.err "You already have a clinic booking on this date", db)) ∧
    (∀ db B pid date tid,
      (book_opd_slot { db with blocked_dates := B } pid date tid).1 =
        (book_opd_slot db pid date tid).1) := by
  refine ⟨book_opd_slot_templateNotFound, book_opd_slot_full, book_opd_slot_patientOpd,
    book_opd_slot_patientClinic, ?_⟩
  intro db B pid date tid
  cases hf : findTemplate db.opd_slot_templates tid with
  | none =>
    rw [book_opd_slot_templateNotFound { db with blocked_dates := B } pid date tid hf,
      book_opd_slot_templateNotFound db pid date tid hf]
  | some tpl =>
    by_cases h1 : tpl.max_slots ≤ opdBookedCount db date tid
    · rw [book_opd_slot_full { db with blocked_dates := B } pid date tid tpl hf h1,
        book_opd_slot_full db pid date tid tpl hf h1]
    · have h1' := Nat.lt_of_not_le h1
      cases h2 : patientHasOpdBooking db pid date with
      | true =>
        rw [book_opd_slot_patientOpd { db with blocked_dates := B } pid date tid tpl hf h1' h2,
          book_opd_slot_patientOpd db pid date tid tpl hf h1' h2]
      | false =>
        cases h3 : patientHasClinicBooking db pid date with
        | true =>
          rw [book_opd_slot_patientClinic { db with blocked_dates := B } pid date tid tpl
              hf h1' h2 h3,
            book_opd_slot_patientClinic db pid date tid tpl hf h1' h2 h3]
        | false =>
          cases h4 : opdSlotTaken db date tid (opdBookedCount db date tid + 1) with
          | true =>
            rw [book_opd_slot_conflict { db with blocked_dates := B } pid date tid tpl
                hf h1' h2 h3 h4,
              book_opd_slot_conflict db pid date tid tpl hf h1' h2 h3 h4]
          | false =>
            rw [book_opd_slot_success { db with blocked_dates := B } pid date tid tpl
                hf h1' h2 h3 h4,
              book_opd_slot_success db pid date tid tpl hf h1' h2 h3 h4]
            rfl

/-- Witness for `allocation_check_order` at concrete inputs, including the
blocked-dates independence conjunct on the blocked-date configuration. -/
theorem allocation_check_order_witness :
    book_opd_slot dbC0 1 5 99 = (.err "Template not found", dbC0) ∧
    book_opd_slot dbD1 2 5 1 = (.err "Slot is fully booked", dbD1) ∧
    (book_opd_slot { dbE0 with blocked_dates := [] } 1 5 1).1 =
      (book_opd_slot dbE0 1 5 1).1 :=
  ⟨allocation_check_order.1 dbC0 1 5 99 (by decide),
   allocation_check_order.2.1 dbD1 2 5 1 tplOne (by decide) (by decide),
   allocation_check_order.2.2.2.2 dbE0 [] 1 5 1⟩

/-- C9 (amended): whenever the computed slot number collides with an existing
row — the storage-conflict case — the JavaScript wrapper hands the raw
storage error message to the caller unchanged, with no booking created; the
message is not the SlotFull rejection. -/
theorem conflict_error_returned_raw :
    (∀ db pid date tid tpl, findTemplate db.opd_slot_templates tid = some tpl →
      opdBookedCount db date tid < tpl.max_slots →
      patientHasOpdBooking db pid date = false →
      patientHasClinicBooking db pid date = false →
      opdSlotTaken db date tid (opdBookedCount db date tid + 1) = true →
      bookOPDSlot db pid date tid = (⟨none, some opdUniqueViolationMsg⟩, db)) ∧
    (∀ db pid cid date tid tpl, findTemplate db.clinic_slot_templates tid = some tpl →
      clinicBookedCount db date tid < tpl.max_slots →
      patientHasOpdBooking db pid date = false →
      patientHasClinicBooking db pid date = false →
      clinicSlotTaken db date tid (clinicBookedCount db date tid + 1) = true →
      bookClinicSlot db pid cid date tid = (⟨none, some clinicUniqueViolationMsg⟩, db)) ∧
    opdUniqueViolationMsg ≠ "Slot is fully booked" ∧
    clinicUniqueViolationMsg ≠ "Slot is fully booked" := by
  refine ⟨?_, ?_, by decide, by decide⟩
  · intro db pid date tid tpl hf hcap hopd hcl htaken
    unfold bookOPDSlot
    rw [book_opd_slot_conflict db pid date tid tpl hf hcap hopd hcl htaken]
  · intro db pid cid date tid tpl hf hcap hopd hcl htaken
    unfold bookClinicSlot
    rw [book_clinic_slot_conflict db pid cid date tid tpl hf hcap hopd hcl htaken]

/-- Witness for `conflict_error_returned_raw` at the concrete reachable
post-cancellation state. -/
theorem conflict_error_returned_raw_witness :
    bookOPDSlot dbC3 4 5 1 = (⟨none, some opdUniqueViolationMsg⟩, dbC3) :=
  conflict_error_returned_raw.1 dbC3 4 5 1 tplTwo (by decide) (by decide) (by decide)
    (by decide) (by decide)

/-- C10: the patient-facing cancellation operations always report success —
the error component is `none` unconditionally — and when no row matches the
(bookingId, patientId, status = pending) filter the ledger is returned
unchanged, so the caller cannot distinguish an actual cancellation from a
no-op on a nonexistent id, another patient's booking, or a non-pending
booking. -/
theorem cancel_reports_success_even_on_no_match :
    (∀ db bid pid reason, (cancelOPDBooking db bid pid reason).1 = none) ∧
    (∀ db bid pid reason, (cancelClinicBooking db bid pid reason).1 = none) ∧
    (∀ db bid pid reason,
      (∀ b ∈ db.opd_bookings, cancelMatch bid pid b.id b.patient_id b.status = false) →
      (cancelOPDBooking db bid pid reason).2 = db) ∧
    (∀ db bid pid reason,
      (∀ b ∈ db.clinic_bookings, cancelMatch bid pid b.id b.patient_id b.status = false) →
      (cancelClinicBooking db bid pid reason).2 = db) := by
  refine ⟨fun _ _ _ _ => rfl, fun _ _ _ _ => rfl, ?_, ?_⟩
  · intro db bid pid reason hno
    show { db with opd_bookings := db.opd_bookings.map _ } = db
    have hmap : db.opd_bookings.map (fun b =>
        if cancelMatch bid pid b.id b.patient_id b.status then
          { b with status := Status.cancelled, cancellation_reason := some reason }
        else b) = db.opd_bookings.map id := by
      apply List.map_congr_left
      intro b hb
      rw [if_neg (by rw [hno b hb]; exact Bool.false_ne_true)]
      rfl
    rw [hmap, List.map_id]
  · intro db bid pid reason hno
    show { db with clinic_bookings := db.clinic_bookings.map _ } = db
    have hmap : db.clinic_bookings.map (fun b =>
        if cancelMatch bid pid b.id b.patient_id b.status then
          { b with status := Status.cancelled, cancellation_reason := some reason }
        else b) = db.clinic_bookings.map id := by
      apply List.map_congr_left
      intro b hb
      rw [if_neg (by rw [hno b hb]; exact Bool.false_ne_true)]
      rfl
    rw [hmap, List.map_id]

/-- Witness for `cancel_reports_success_even_on_no_match`: cancelling an
unknown booking id reports success and changes nothing. -/
theorem cancel_reports_success_even_on_no_match_witness :
    (cancelOPDBooking dbD1 99 1 "test").1 = none ∧
    (cancelOPDBooking dbD1 99 1 "test").2 = dbD1 ∧
    (cancelClinicBooking dbD1 99 1 "test").2 = dbD1 :=
  ⟨cancel_reports_success_even_on_no_match.1 dbD1 99 1 "test",
   cancel_reports_success_even_on_no_match.2.2.1 dbD1 99 1 "test" (by decide),
   cancel_reports_success_even_on_no_match.2.2.2 dbD1 99 1 "test" (by decide)⟩

/-- Pointwise relation between a list and its image under a map. -/
theorem forall2_map_self {α : Type} {R : α → α → Prop} (g : α → α) (l : List α)
    (h : ∀ b ∈ l, R b (g b)) : List.Forall₂ R l (l.map g) := by
  induction l with
  | nil => exact List.Forall₂.nil
  | cons b l ih =>
    exact List.Forall₂.cons (h b (by simp)) (ih (fun x hx => h x (by simp [hx])))

/-- C7 (amended): a patient-initiated cancellation always returns
`{error: null}`; it rewrites exactly the rows matching (bookingId, patientId,
status = pending) to cancelled, leaving ids and slot numbers untouched — its
behaviour is a function of the booking ledger alone, independent of any
clock, so no cancellation-window check is applied by the operation; the
2-hour cutoff lives only in the separate UI helper `canCancelBooking`, which
is true exactly when more than 2*3600 seconds remain. -/
theorem patient_cancel_behavior :
    (∀ db bid pid reason,
      (cancelOPDBooking db bid pid reason).1 = none ∧
      (cancelOPDBooking db bid pid reason).2.opd_bookings.map (fun b => b.id) =
        db.opd_bookings.map (fun b => b.id) ∧
      (cancelOPDBooking db bid pid reason).2.opd_bookings.map (fun b => b.slot_number) =
        db.opd_bookings.map (fun b => b.slot_number) ∧
      (cancelOPDBooking db bid pid reason).2.opd_bookings.map (fun b => b.status) =
        db.opd_bookings.map (fun b =>
          if cancelMatch bid pid b.id b.patient_id b.status then Status.cancelled
          else b.status)) ∧
    (∀ db bid pid reason,
      (cancelClinicBooking db bid pid reason).1 = none ∧
      (cancelClinicBooking db bid pid reason).2.clinic_bookings.map (fun b => b.id) =
        db.clinic_bookings.map (fun b => b.id) ∧
      (cancelClinicBooking db bid pid reason).2.clinic_bookings.map (fun b => b.slot_number) =
        db.clinic_bookings.map (fun b => b.slot_number) ∧
      (cancelClinicBooking db bid pid reason).2.clinic_bookings.map (fun b => b.status) =
        db.clinic_bookings.map (fun b =>
          if cancelMatch bid pid b.id b.patient_id b.status then Status.cancelled
          else b.status)) ∧
    (∀ sec : Int, canCancelBooking sec = true ↔ sec > 2 * 3600) := by
  refine ⟨?_, ?_, ?_⟩
  · intro db bid pid reason
    refine ⟨rfl, ?_, ?_, ?_⟩ <;>
    · show (db.opd_bookings.map _).map _ = _
      rw [List.map_map]
      apply List.map_congr_left
      intro b _
      by_cases h : cancelMatch bid pid b.id b.patient_id b.status = true
      · simp only [Function.comp_apply, if_pos h]
      · simp only [Function.comp_apply, if_neg h]
  · intro db bid pid reason
    refine ⟨rfl, ?_, ?_, ?_⟩ <;>
    · show (db.clinic_bookings.map _).map _ = _
      rw [List.map_map]
      apply List.map_congr_left
      intro b _
      by_cases h : cancelMatch bid pid b.id b.patient_id b.status = true
      · simp only [Function.comp_apply, if_pos h]
      · simp only [Function.comp_apply, if_neg h]
  · intro sec
    simp [canCancelBooking, cancellationWindowHours]

/-- Witness for `patient_cancel_behavior` at the single-booking state. -/
theorem patient_cancel_behavior_witness :
    (cancelOPDBooking dbD1 1 1 "w").1 = none ∧
    (cancelOPDBooking dbD1 1 1 "w").2.opd_bookings.map (fun b => b.status) =
      dbD1.opd_bookings.map (fun b =>
        if cancelMatch 1 1 b.id b.patient_id b.status then Status.cancelled
        else b.status) ∧
    (canCancelBooking 7201 = true ↔ (7201 : Int) > 2 * 3600) :=
  ⟨(patient_cancel_behavior.1 dbD1 1 1 "w").1,
   (patient_cancel_behavior.1 dbD1 1 1 "w").2.2.2,
   patient_cancel_behavior.2.2 7201⟩

/-- C8 (amended): the patient cancellation operations change no booking whose
status differs from `pending` — in particular every terminal booking is left
alone — but `updateBookingStatus` overwrites the status of the addressed row
with the requested value unconditionally, with no transition validation, so
terminal states are not final under sequences containing status updates. -/
theorem terminal_not_final_under_update :
    (∀ db bid pid reason,
      List.Forall₂ (fun b b' : Booking =>
        (b.status ≠ Status.pending → b'.status = b.status) ∧
        (b'.status = b.status ∨ b'.status = Status.cancelled))
        db.opd_bookings (cancelOPDBooking db bid pid reason).2.opd_bookings) ∧
    (∀ db bid pid reason,
      List.Forall₂ (fun b b' : ClinicBooking =>
        (b.status ≠ Status.pending → b'.status = b.status) ∧
        (b'.status = b.status ∨ b'.status = Status.cancelled))
        db.clinic_bookings (cancelClinicBooking db bid pid reason).2.clinic_bookings) ∧
    (∀ db bid st adminId,
      List.Forall₂ (fun b b' : Booking =>
        b'.status = if b.id == bid then st else b.status)
        db.opd_bookings (updateBookingStatus db .opd bid st adminId).2.opd_bookings) ∧
    (∀ db bid st adminId,
      List.Forall₂ (fun b b' : ClinicBooking =>
        b'.status = if b.id == bid then st else b.status)
        db.clinic_bookings (updateBookingStatus db .clinic bid st adminId).2.clinic_bookings) := by
  refine ⟨?_, ?_, ?_, ?_⟩
  · intro db bid pid reason
    apply forall2_map_self
    intro b _
    by_cases h : cancelMatch bid pid b.id b.patient_id b.status = true
    · have hpend : b.status = Status.pending := by
        have h3 := h
        simp only [cancelMatch, Bool.and_eq_true, beq_iff_eq] at h3
        exact h3.2
      rw [if_pos h]
      exact ⟨fun hne => absurd hpend hne, Or.inr rfl⟩
    · rw [if_neg h]
      exact ⟨fun _ => rfl, Or.inl rfl⟩
  · intro db bid pid reason
    apply forall2_map_self
    intro b _
    by_cases h : cancelMatch bid pid b.id b.patient_id b.status = true
    · have hpend : b.status = Status.pending := by
        have h3 := h
        simp only [cancelMatch, Bool.and_eq_true, beq_iff_eq] at h3
        exact h3.2
      rw [if_pos h]
      exact ⟨fun hne => absurd hpend hne, Or.inr rfl⟩
    · rw [if_neg h]
      exact ⟨fun _ => rfl, Or.inl rfl⟩
  · intro db bid st adminId
    apply forall2_map_self
    intro b _
    by_cases h : (b.id == bid) = true
    · rw [if_pos h, if_pos h]
    · rw [if_neg h, if_neg h]
  · intro db bid st adminId
    apply forall2_map_self
    intro b _
    by_cases h : (b.id == bid) = true
    · rw [if_pos h, if_pos h]
    · rw [if_neg h, if_neg h]

/-- Witness for `terminal_not_final_under_update`: the completed booking is
left alone by cancellation but overwritten to pending by a status update. -/
theorem terminal_not_final_under_update_witness :
    List.Forall₂ (fun b b' : Booking =>
        (b.status ≠ Status.pending → b'.status = b.status) ∧
        (b'.status = b.status ∨ b'.status = Status.cancelled))
      dbD2.opd_bookings (cancelOPDBooking dbD2 1 1 "w").2.opd_bookings ∧
    List.Forall₂ (fun b b' : Booking =>
        b'.status = if b.id == 1 then Status.pending else b.status)
      dbD2.opd_bookings (updateBookingStatus dbD2 .opd 1 .pending 9).2.opd_bookings :=
  ⟨terminal_not_final_under_update.1 dbD2 1 1 "w",
   terminal_not_final_under_update.2.2.1 dbD2 1 .pending 9⟩

/-! Decoding machinery for the generated patient identifiers: `digitsVal`
decodes the zero-padded decimal suffix, establishing injectivity of the
identifier for sequence numbers that fit in six digits, and exposing the
collision beyond them. -/

/-- Folding the digit-accumulation step from an arbitrary accumulator. -/
theorem digitsVal_foldl (l : List Char) (a : Nat) :
    l.foldl (fun a c => 10 * a + (c.toNat - 48)) a =
      a * 10 ^ l.length + digitsVal l := by
  induction l generalizing a with
  | nil => simp [digitsVal]
  | cons c l ih =>
    simp only [List.foldl_cons, digitsVal, List.length_cons]
    rw [ih (10 * a + (c.toNat - 48)), ih (10 * 0 + (c.toNat - 48))]
    ring

/-- Decimal value of a concatenation. -/
theorem digitsVal_append (l1 l2 : List Char) :
    digitsVal (l1 ++ l2) = digitsVal l1 * 10 ^ l2.length + digitsVal l2 := by
  unfold digitsVal
  rw [List.foldl_append]
  exact digitsVal_foldl l2 _

/-- Leading zero characters contribute nothing to the decimal value. -/
theorem digitsVal_replicate_zero (m : Nat) :
    digitsVal (List.replicate m '0') = 0 := by
  induction m with
  | zero => rfl
  | succ m ih =>
    rw [List.replicate_succ]
    show (List.replicate m '0').foldl (fun a c => 10 * a + (c.toNat - 48))
      (10 * 0 + ('0'.toNat - 48)) = 0
    have h0 : 10 * 0 + ('0'.toNat - 48) = 0 := by decide
    rw [h0]
    exact ih

/-- `Nat.digitChar` decodes back to the digit below base 10. -/
theorem digitChar_decode (d : Nat) (hd : d < 10) : (Nat.digitChar d).toNat - 48 = d := by
  interval_cases d <;> decide

/-- Value of `Nat.toDigitsCore` output: the digits of `n` prefix the
accumulator positionally, for any sufficient fuel. -/
theorem digitsVal_toDigitsCore (fuel : Nat) : ∀ (n : Nat) (ds : List Char), n < 10 ^ fuel →
    digitsVal (Nat.toDigitsCore 10 fuel n ds) = n * 10 ^ ds.length + digitsVal ds := by
  induction fuel with
  | zero =>
    intro n ds h
    have hn : n = 0 := by simpa using h
    subst hn
    simp [Nat.toDigitsCore]
  | succ fuel ih =>
    intro n ds h
    simp only [Nat.toDigitsCore]
    by_cases h0 : n / 10 = 0
    · rw [if_pos h0]
      have hn10 : n < 10 := by omega
      show (ds.foldl (fun a c => 10 * a + (c.toNat - 48))
        (10 * 0 + ((Nat.digitChar (n % 10)).toNat - 48))) = n * 10 ^ ds.length + digitsVal ds
      rw [digitChar_decode (n % 10) (Nat.mod_lt n (by omega))]
      rw [digitsVal_foldl]
      have : 10 * 0 + n % 10 = n := by omega
      rw [this]
    · rw [if_neg h0]
      have hlt : n / 10 < 10 ^ fuel := by
        have hp : (10 : Nat) ^ (fuel + 1) = 10 ^ fuel * 10 := pow_succ 10 fuel
        rw [hp] at h
        omega
      rw [ih (n / 10) (Nat.digitChar (n % 10) :: ds) hlt]
      have hcons : digitsVal (Nat.digitChar (n % 10) :: ds) =
          (n % 10) * 10 ^ ds.length + digitsVal ds := by
        show ds.foldl (fun a c => 10 * a + (c.toNat - 48))
          (10 * 0 + ((Nat.digitChar (n % 10)).toNat - 48)) = _
        rw [digitChar_decode (n % 10) (Nat.mod_lt n (by omega))]
        rw [digitsVal_foldl]
        ring_nf
      rw [hcons]
      simp only [List.length_cons]
      have h5 : n / 10 * 10 + n % 10 = n := by omega
      calc n / 10 * 10 ^ (ds.length + 1) + ((n % 10) * 10 ^ ds.length + digitsVal ds)
          = (n / 10 * 10 + n % 10) * 10 ^ ds.length + digitsVal ds := by ring
        _ = n * 10 ^ ds.length + digitsVal ds := by rw [h5]

/-- The digits of `n` decode back to `n`. -/
theorem digitsVal_toDigits (n : Nat) : digitsVal (Nat.toDigits 10 n) = n := by
  unfold Nat.toDigits
  have hfuel : n < 10 ^ (n + 1) := by
    have h1 : n < 2 ^ n := Nat.lt_two_pow n
    have h2 : (2 : Nat) ^ n ≤ 10 ^ n := Nat.pow_le_pow_left (by omega) n
    have h3 : (10 : Nat) ^ n ≤ 10 ^ (n + 1) := Nat.pow_le_pow_right (by omega) (by omega)
    omega
  rw [digitsVal_toDigitsCore (n + 1) n [] hfuel]
  simp [digitsVal]

/-- Length bound for `Nat.toDigitsCore`: numbers below `10 ^ k` produce at
most `k` digit characters. -/
theorem toDigitsCore_length_le (fuel : Nat) : ∀ (n k : Nat) (ds : List Char),
    n < 10 ^ k → 1 ≤ k →
    (Nat.toDigitsCore 10 fuel n ds).length ≤ k + ds.length := by
  induction fuel with
  | zero =>
    intro n k ds _ _
    simp only [Nat.toDigitsCore]
    omega
  | succ fuel ih =>
    intro n k ds hn hk
    simp only [Nat.toDigitsCore]
    by_cases h0 : n / 10 = 0
    · rw [if_pos h0]
      simp only [List.length_cons]
      omega
    · rw [if_neg h0]
      have hk2 : 2 ≤ k := by
        rcases Nat.lt_or_ge k 2 with hlt | hge
        · exfalso
          have hk1 : k = 1 := by omega
          subst hk1
          simp at hn
          omega
        · exact hge
      have hlt : n / 10 < 10 ^ (k - 1) := by
        have hp : (10 : Nat) ^ k = 10 ^ (k - 1) * 10 := by
          rw [← pow_succ]
          congr 1
          omega
        rw [hp] at hn
        omega
      have := ih (n / 10) (k - 1) (Nat.digitChar (n % 10) :: ds) hlt (by omega)
      simp only [List.length_cons] at this
      omega

/-- A sequence number below one million prints in at most six characters. -/
theorem repr_length_le_six (n : Nat) (h : n < 10 ^ 6) : (Nat.repr n).length ≤ 6 := by
  show (Nat.toDigits 10 n).length ≤ 6
  have := toDigitsCore_length_le (n + 1) n 6 [] h (by omega)
  simpa using this

/-- Decoding the zero-padded six-character suffix recovers the sequence
number, for sequence numbers below one million. -/
theorem lpad_repr_decode (n : Nat) (h : n < 10 ^ 6) :
    digitsVal (lpad (Nat.repr n) 6 '0').toList = n := by
  unfold lpad
  have hle : (Nat.repr n).length ≤ 6 := repr_length_le_six n h
  by_cases hlen : 6 ≤ (Nat.repr n).length
  · rw [if_pos hlen]
    show digitsVal ((Nat.repr n).toList.take 6) = n
    rw [List.take_of_length_le (by
      show (Nat.repr n).toList.length ≤ 6
      exact hle)]
    exact digitsVal_toDigits n
  · rw [if_neg hlen]
    show digitsVal (List.replicate (6 - (Nat.repr n).length) '0' ++ (Nat.repr n).toList) = n
    rw [digitsVal_append, digitsVal_replicate_zero]
    simpa using digitsVal_toDigits n

/-- After `k ≥ 1` sequential calls in year `y` from an empty table, the
sequence table holds exactly the row `(y, k)`. -/
theorem callsFrom_empty (y : Nat) : ∀ k, 1 ≤ k → callsFrom y ⟨[]⟩ k = ⟨[(y, k)]⟩ := by
  intro k hk
  induction k with
  | zero => omega
  | succ k ih =>
    rcases Nat.eq_zero_or_pos k with h0 | hpos
    · subst h0
      rfl
    · show (generate_patient_id y (callsFrom y ⟨[]⟩ k)).2 = ⟨[(y, k + 1)]⟩
      rw [ih hpos]
      simp [generate_patient_id]

/-- Closed form of the identifier returned by the `(k+1)`-st sequential call
in a year: prefix, year, and the zero-padded (or truncated) printout of the
sequence number `k+1`. -/
theorem nthPatientId_eq (y k : Nat) :
    nthPatientId y k = "AMH" ++ Nat.repr y ++ lpad (Nat.repr (k + 1)) 6 '0' := by
  rcases Nat.eq_zero_or_pos k with h0 | hpos
  · subst h0
    rfl
  · unfold nthPatientId
    rw [callsFrom_empty y k hpos]
    simp [generate_patient_id]

/-- C6 counterexample: within one calendar year the 100000-th and the
1000000-th sequential calls return the same identifier — PostgreSQL
`LPAD(.., 6, ..)` truncates a seven-digit sequence number to its first six
characters, so suffixes collide once the counter passes 999999 and the
claimed distinctness of N sequential identifiers fails (at N = 10^6). -/
theorem patient_id_collision_beyond_six_digits :
    nthPatientId 2026 99999 = nthPatientId 2026 999999 ∧ (99999 : Nat) ≠ 999999 := by
  constructor
  · rw [nthPatientId_eq, nthPatientId_eq]
    have h1 : lpad (Nat.repr (99999 + 1)) 6 '0' = lpad (Nat.repr (999999 + 1)) 6 '0' := by
      decide
    rw [h1]
  · decide

/-- C6 (amended): every identifier has the form
`'AMH' ++ year ++ LPAD(seq, 6, '0')`; the `(k+1)`-st sequential call in a
year embeds sequence number `k+1` (so sequence numbers are strictly
increasing, starting at 1); identifiers within a year are pairwise distinct
as long as the sequence stays at or below 999999 (the six-character suffix
then decodes back to the sequence number); and the first call of a different
year restarts at suffix '000001' with the new year embedded. -/
theorem patient_id_format_and_monotonicity :
    (∀ y k, nthPatientId y k = "AMH" ++ Nat.repr y ++ lpad (Nat.repr (k + 1)) 6 '0') ∧
    (∀ k, k + 1 ≤ 999999 → digitsVal (lpad (Nat.repr (k + 1)) 6 '0').toList = k + 1) ∧
    (∀ y i j, i < j → j + 1 ≤ 999999 → nthPatientId y i ≠ nthPatientId y j) ∧
    (∀ y k, 1 ≤ k → callsFrom y ⟨[]⟩ k = ⟨[(y, k)]⟩) ∧
    (∀ y y' k, y' ≠ y →
      (generate_patient_id y' ⟨[(y, k)]⟩).1 = "AMH" ++ Nat.repr y' ++ "000001") := by
  refine ⟨nthPatientId_eq, ?_, ?_, callsFrom_empty, ?_⟩
  · intro k hk
    exact lpad_repr_decode (k + 1) (by omega)
  · intro y i j hij hj heq
    rw [nthPatientId_eq, nthPatientId_eq] at heq
    have hdata : ((("AMH" ++ Nat.repr y) ++ lpad (Nat.repr (i + 1)) 6 '0')).data =
        ((("AMH" ++ Nat.repr y) ++ lpad (Nat.repr (j + 1)) 6 '0')).data :=
      congrArg String.data heq
    have happ : ∀ s t : String, (s ++ t).data = s.data ++ t.data := fun _ _ => rfl
    rw [happ, happ] at hdata
    have hsuffix : (lpad (Nat.repr (i + 1)) 6 '0').data =
        (lpad (Nat.repr (j + 1)) 6 '0').data :=
      List.append_cancel_left hdata
    have hi := lpad_repr_decode (i + 1) (by omega)
    have hjv := lpad_repr_decode (j + 1) (by omega)
    have htoList : ∀ s : String, s.toList = s.data := fun _ => rfl
    rw [htoList] at hi hjv
    rw [hsuffix] at hi
    omega
  · intro y y' k h
    have hfind : ([(y, k)] : List (Nat × Nat)).find? (fun r => r.1 == y') = none := by
      have : ((y, k).1 == y') = false := by
        simp only [beq_eq_false_iff_ne]
        exact fun hyy => h hyy.symm
      simp [List.find?, this]
    unfold generate_patient_id
    rw [hfind]
    have hpad : lpad (Nat.repr 1) 6 '0' = "000001" := by decide
    rw [hpad]

/-- Witness for `patient_id_format_and_monotonicity` at concrete inputs. -/
theorem patient_id_format_and_monotonicity_witness :
    nthPatientId 2026 0 = "AMH" ++ Nat.repr 2026 ++ lpad (Nat.repr 1) 6 '0' ∧
    digitsVal (lpad (Nat.repr 1) 6 '0').toList = 1 ∧
    nthPatientId 2026 0 ≠ nthPatientId 2026 1 ∧
    callsFrom 2026 ⟨[]⟩ 3 = ⟨[(2026, 3)]⟩ ∧
    (generate_patient_id 2027 ⟨[(2026, 5)]⟩).1 = "AMH" ++ Nat.repr 2027 ++ "000001" :=
  ⟨patient_id_format_and_monotonicity.1 2026 0,
   patient_id_format_and_monotonicity.2.1 0 (by omega),
   patient_id_format_and_monotonicity.2.2.1 2026 0 1 (by omega) (by omega),
   patient_id_format_and_monotonicity.2.2.2.1 2026 3 (by omega),
   patient_id_format_and_monotonicity.2.2.2.2 2026 2027 5 (by omega)⟩
